import Mathlib

/-!
Verification of the dirsearch and nmap MCP servers
(`src/dirsearch/dirsearch-mcp-server.py`, `src/nmap/nmap-mcp-server.py`).

Modelling conventions.
Argument builders become pure Lean functions from the tools' parameters to
token lists.  Python's `shlex.split` (POSIX mode, `whitespace_split=True`,
empty `commenters`, as used by `shlex.split(extra_args)`) is an explicit
state machine over the character list.  The classification step of
`_run_dirsearch` / `_run_nmap` (what the code does with the finished
`subprocess.run` result) is a function of the captured result
(exit status, stdout, stderr); the subprocess itself is an oracle
`List String → ProcResult` given to instrumented run functions that also
record every spawned command line.  Python `int` values are `Int`,
`int | None` is `Option Int`, `str | None` timing templates are
`Option String` (an f-string renders `None` as the text `None`).
-/

/-- Captured result of a finished subprocess (`subprocess.run` with
`capture_output=True, text=True, check=False`): exit status, standard
output and standard error as text. -/
structure ProcResult where
  returncode : Int
  stdout : String
  stderr : String
deriving DecidableEq, Repr

/-- Tokenisation failures of `shlex` in POSIX mode:
`ValueError("No closing quotation")` when the input ends inside a quote,
`ValueError("No escaped character")` when it ends right after an escape. -/
inductive ShlexErr where
  | noClosingQuotation
  | noEscapedCharacter
deriving DecidableEq, Repr

/-- Lexer states of `shlex.read_token` reachable under `posix=True`,
`whitespace_split=True`, empty `punctuation_chars` and `commenters`:
the whitespace state `' '`, the word state `'a'`, the single- and
double-quote states, and the escape state remembering whether it was
entered with `escapedstate = 'a'` or from inside double quotes. -/
inductive SState where
  | sp
  | wordA
  | sq
  | dq
  | escA
  | escDQ
deriving DecidableEq, Repr

/-- The `shlex` whitespace class `' \t\r\n'`. -/
def isWS (c : Char) : Bool :=
  c == ' ' || c == '\t' || c == '\r' || c == '\n'

/-- One-pass transcription of `shlex.read_token` iterated to exhaustion
(`shlex.split` collects tokens until `get_token` returns `None`).
`tok` is the token accumulated so far, `quoted` the per-token flag that
lets an empty quoted token be emitted, `acc` the tokens produced. -/
def shlexCore : List Char → SState → String → Bool → List String →
    Except ShlexErr (List String)
  | [], SState.sp, _, _, acc => Except.ok acc
  | [], SState.wordA, tok, quoted, acc =>
      if tok ≠ "" ∨ quoted = true then Except.ok (acc ++ [tok]) else Except.ok acc
  | [], SState.sq, _, _, _ => Except.error ShlexErr.noClosingQuotation
  | [], SState.dq, _, _, _ => Except.error ShlexErr.noClosingQuotation
  | [], SState.escA, _, _, _ => Except.error ShlexErr.noEscapedCharacter
  | [], SState.escDQ, _, _, _ => Except.error ShlexErr.noEscapedCharacter
  | c :: cs, SState.sp, _, _, acc =>
      if isWS c then shlexCore cs SState.sp "" false acc
      else if c = '\\' then shlexCore cs SState.escA "" false acc
      else if c = '\'' then shlexCore cs SState.sq "" false acc
      else if c = '"' then shlexCore cs SState.dq "" false acc
      else shlexCore cs SState.wordA (String.singleton c) false acc
  | c :: cs, SState.wordA, tok, quoted, acc =>
      if isWS c then
        if tok ≠ "" ∨ quoted = true then shlexCore cs SState.sp "" false (acc ++ [tok])
        else shlexCore cs SState.sp "" false acc
      else if c = '\'' then shlexCore cs SState.sq tok quoted acc
      else if c = '"' then shlexCore cs SState.dq tok quoted acc
      else if c = '\\' then shlexCore cs SState.escA tok quoted acc
      else shlexCore cs SState.wordA (tok.push c) quoted acc
  | c :: cs, SState.sq, tok, _, acc =>
      if c = '\'' then shlexCore cs SState.wordA tok true acc
      else shlexCore cs SState.sq (tok.push c) true acc
  | c :: cs, SState.dq, tok, _, acc =>
      if c = '"' then shlexCore cs SState.wordA tok true acc
      else if c = '\\' then shlexCore cs SState.escDQ tok true acc
      else shlexCore cs SState.dq (tok.push c) true acc
  | c :: cs, SState.escA, tok, quoted, acc =>
      shlexCore cs SState.wordA (tok.push c) quoted acc
  | c :: cs, SState.escDQ, tok, _, acc =>
      if c = '\\' ∨ c = '"' then shlexCore cs SState.dq (tok.push c) true acc
      else shlexCore cs SState.dq ((tok.push '\\').push c) true acc

/-- `shlex.split(s)`: POSIX tokenisation of `s` into a token list, or a
`ValueError` for an unterminated quote / trailing escape. -/
def shlexSplit (s : String) : Except ShlexErr (List String) :=
  shlexCore s.data SState.sp "" false []

/-! Nmap server (`src/nmap/nmap-mcp-server.py`). -/

/-- Rendering of the `timing : str | None` parameter inside
`f"-{timing}"`: a Python f-string formats `None` as the text `None`. -/
def pyStr (t : Option String) : String :=
  match t with
  | some s => s
  | none => "None"

/-- Helper `_add_pn`: prepend `-Pn` to every scan except `ping_sweep`. -/
def _add_pn (args : List String) : List String :=
  "-Pn" :: args

/-- Tokens built by `full_port_scan(target, timing="T4")`:
`_add_pn(["-sS", "-p", "1-65535", f"-{timing}", target])`. -/
def full_port_scan_args (target : String) (timing : Option String) : List String :=
  _add_pn ["-sS", "-p", "1-65535", "-" ++ pyStr timing, target]

/-- Source default `timing="T4"` of `full_port_scan`. -/
def full_port_scan_timing_default : Option String := some "T4"

/-- Tokens built by `stealth_syn_scan(target, ports="1-1000", timing="T3")`:
`_add_pn(["-sS", "-p", ports, f"-{timing}", target])`. -/
def stealth_syn_scan_args (target ports : String) (timing : Option String) : List String :=
  _add_pn ["-sS", "-p", ports, "-" ++ pyStr timing, target]

/-- Tokens built by `tcp_connect_scan(target, ports="1-1024", timing="T3")`:
`_add_pn(["-sT", "-p", ports, f"-{timing}", target])`. -/
def tcp_connect_scan_args (target ports : String) (timing : Option String) : List String :=
  _add_pn ["-sT", "-p", ports, "-" ++ pyStr timing, target]

/-- Tokens built by `udp_scan(target, ports="1-1000", timing="T4")`:
`_add_pn(["-sU", "-p", ports, f"-{timing}", target])`. -/
def udp_scan_args (target ports : String) (timing : Option String) : List String :=
  _add_pn ["-sU", "-p", ports, "-" ++ pyStr timing, target]

/-- Tokens built by `os_detection_scan(target, quick=False)`:
`args = ["-O", target]`, with `-F` inserted at position 0 when `quick`,
then `_add_pn`. -/
def os_detection_scan_args (target : String) (quick : Bool) : List String :=
  _add_pn (if quick then ["-F", "-O", target] else ["-O", target])

/-- Tokens built by `ping_sweep(network)`: `["-sn", network]`, the one
nmap tool that does not go through `_add_pn`. -/
def ping_sweep_args (network : String) : List String :=
  ["-sn", network]

/-- Tokens built by `aggressive_scan(target)`: `_add_pn(["-A", target])`. -/
def aggressive_scan_args (target : String) : List String :=
  _add_pn ["-A", target]

/-- Tokens built by the nmap `custom_scan(target, extra_args)`:
`_add_pn([*shlex.split(extra_args), target])`, or the `shlex` error. -/
def nmap_custom_scan_args (target extra_args : String) :
    Except ShlexErr (List String) :=
  (shlexSplit extra_args).map (fun ts => _add_pn (ts ++ [target]))

/-! Dirsearch server (`src/dirsearch/dirsearch-mcp-server.py`).
The `str | None` extension parameters are modelled as `String`: a `None`
value is not a string and could not appear as a token (passing it on
would make `subprocess.run` fail outside the builder). -/

/-- Flags common to most dirsearch tools, `_base_args(threads=20,
include_errors=False)`: `["-q"]`, then `["-t", str(threads)]` when
`threads` is truthy (not `None` and not `0`), then
`["--include-status", "200-399"]` unless `include_errors`. -/
def _base_args (threads : Option Int) (include_errors : Bool) : List String :=
  ["-q"]
    ++ (match threads with
        | some n => if n ≠ 0 then ["-t", toString n] else []
        | none => [])
    ++ (if include_errors then [] else ["--include-status", "200-399"])

/-- Source default `threads=20` shared by the dirsearch tools other than
`deep_recursive_scan`. -/
def threads_default : Option Int := some 20

/-- Source default `threads=40` of `deep_recursive_scan`. -/
def deep_threads_default : Option Int := some 40

/-- Tokens built by `quick_scan(url, extensions, threads=20,
show_errors=False)`: `_base_args(threads, show_errors) + ["-u", url, "-e",
extensions]`. -/
def quick_scan_args (url extensions : String) (threads : Option Int)
    (show_errors : Bool) : List String :=
  _base_args threads show_errors ++ ["-u", url, "-e", extensions]

/-- Tokens built by `recursive_scan(url, extensions, max_depth=3,
threads=20, show_errors=False)`: the quick-scan tokens plus `-r`, and
`["-R", str(max_depth)]` when `max_depth is not None` (note: `is not
None`, so `max_depth=0` still adds the flag). -/
def recursive_scan_args (url extensions : String) (max_depth : Option Int)
    (threads : Option Int) (show_errors : Bool) : List String :=
  (_base_args threads show_errors ++ ["-u", url, "-e", extensions, "-r"])
    ++ (match max_depth with
        | some d => ["-R", toString d]
        | none => [])

/-- Tokens built by `deep_recursive_scan(url, extensions, threads=40,
show_errors=False)`. -/
def deep_recursive_scan_args (url extensions : String) (threads : Option Int)
    (show_errors : Bool) : List String :=
  _base_args threads show_errors ++ ["-u", url, "-e", extensions, "--deep-recursive"]

/-- Tokens built by `subdirs_scan(url, subdirs, extensions, threads=20,
show_errors=False)`. -/
def subdirs_scan_args (url subdirs extensions : String) (threads : Option Int)
    (show_errors : Bool) : List String :=
  _base_args threads show_errors ++ ["-u", url, "-e", extensions, "--subdirs", subdirs]

/-- Tokens built by `wordlist_scan(url, wordlists, extensions="",
threads=20, show_errors=False)`; `["-e", extensions]` only when the
extension string is truthy (non-empty). -/
def wordlist_scan_args (url wordlists extensions : String) (threads : Option Int)
    (show_errors : Bool) : List String :=
  (_base_args threads show_errors ++ ["-u", url, "-w", wordlists])
    ++ (if extensions ≠ "" then ["-e", extensions] else [])

/-- Tokens built by `json_report_scan(url, extensions, threads=20,
show_errors=False)` once the report path inside the temporary directory
is known: the quick-scan tokens plus `["--format", "json", "-o",
report_path]`. -/
def json_report_scan_args (url extensions : String) (threads : Option Int)
    (show_errors : Bool) (report_path : String) : List String :=
  _base_args threads show_errors
    ++ ["-u", url, "-e", extensions, "--format", "json", "-o", report_path]

/-- Tokens built by `proxy_scan(url, proxy, extensions, threads=20,
show_errors=False)`. -/
def proxy_scan_args (url proxy extensions : String) (threads : Option Int)
    (show_errors : Bool) : List String :=
  _base_args threads show_errors ++ ["-u", url, "-e", extensions, "--proxy", proxy]

/-- Tokens built by `authenticated_scan(url, auth_cred, auth_type="basic",
extensions, threads=20)`: `_base_args(threads, include_errors=True)` (all
status codes, so auth failures stay visible) plus the auth flags. -/
def authenticated_scan_args (url auth_cred auth_type extensions : String)
    (threads : Option Int) : List String :=
  _base_args threads true
    ++ ["-u", url, "-e", extensions, "--auth", auth_cred, "--auth-type", auth_type]

/-- Tokens built by the dirsearch `custom_scan(url, extra_args)`:
`_base_args(include_errors=True)` (so `threads` keeps its default `20`
and no status filter is added) `+ ["-u", url] + shlex.split(extra_args)`,
or the `shlex` error. -/
def dirsearch_custom_scan_args (url extra_args : String) :
    Except ShlexErr (List String) :=
  (shlexSplit extra_args).map
    (fun ts => _base_args (some 20) true ++ ["-u", url] ++ ts)

/-! Process invokers. -/

/-- Classification step of `_run_dirsearch` on the finished subprocess
result: non-zero exit raises `RuntimeError(f"dirsearch exited with
{returncode}:\n{stderr or stdout}")` (Python `or`: `stderr` when it is
non-empty, else `stdout`); zero exit returns the captured stdout. -/
def _run_dirsearch (r : ProcResult) : Except String String :=
  if r.returncode ≠ 0 then
    Except.error ("dirsearch exited with " ++ toString r.returncode ++ ":\n"
      ++ (if r.stderr = "" then r.stdout else r.stderr))
  else Except.ok r.stdout

/-- Classification step of `_run_nmap`, identical to `_run_dirsearch` up
to the `Nmap exited with ` message prefix. -/
def _run_nmap (r : ProcResult) : Except String String :=
  if r.returncode ≠ 0 then
    Except.error ("Nmap exited with " ++ toString r.returncode ++ ":\n"
      ++ (if r.stderr = "" then r.stdout else r.stderr))
  else Except.ok r.stdout

/-- Invocation failure surfaced to the MCP caller: the `RuntimeError`
raised by a runner, or the `ValueError` raised by `shlex.split` before
any process is started. -/
inductive InvokeError where
  | runtime (msg : String)
  | parse (e : ShlexErr)
deriving DecidableEq, Repr

/-- Run one tool end to end against a subprocess oracle `world`
(mapping a spawned command line to its captured result).  A builder
failure is surfaced directly and nothing is spawned; otherwise exactly
the command `bin :: args` is spawned and its result classified by
`classify`.  The second component records every spawned command line. -/
def invokeTool (classify : ProcResult → Except String String)
    (world : List String → ProcResult) (bin : String)
    (built : Except ShlexErr (List String)) :
    Except InvokeError String × List (List String) :=
  match built with
  | Except.error e => (Except.error (InvokeError.parse e), [])
  | Except.ok args =>
      (match classify (world (bin :: args)) with
       | Except.ok s => Except.ok s
       | Except.error m => Except.error (InvokeError.runtime m),
       [bin :: args])

/-! Instrumented end-to-end runs, one per tool. -/

/-- End-to-end `full_port_scan`. -/
def full_port_scan_run (world : List String → ProcResult) (target : String)
    (timing : Option String) : Except InvokeError String × List (List String) :=
  invokeTool _run_nmap world "nmap" (Except.ok (full_port_scan_args target timing))

/-- End-to-end `stealth_syn_scan`. -/
def stealth_syn_scan_run (world : List String → ProcResult) (target ports : String)
    (timing : Option String) : Except InvokeError String × List (List String) :=
  invokeTool _run_nmap world "nmap" (Except.ok (stealth_syn_scan_args target ports timing))

/-- End-to-end `tcp_connect_scan`. -/
def tcp_connect_scan_run (world : List String → ProcResult) (target ports : String)
    (timing : Option String) : Except InvokeError String × List (List String) :=
  invokeTool _run_nmap world "nmap" (Except.ok (tcp_connect_scan_args target ports timing))

/-- End-to-end `udp_scan`. -/
def udp_scan_run (world : List String → ProcResult) (target ports : String)
    (timing : Option String) : Except InvokeError String × List (List String) :=
  invokeTool _run_nmap world "nmap" (Except.ok (udp_scan_args target ports timing))

/-- End-to-end `os_detection_scan`. -/
def os_detection_scan_run (world : List String → ProcResult) (target : String)
    (quick : Bool) : Except InvokeError String × List (List String) :=
  invokeTool _run_nmap world "nmap" (Except.ok (os_detection_scan_args target quick))

/-- End-to-end `ping_sweep`. -/
def ping_sweep_run (world : List String → ProcResult) (network : String) :
    Except InvokeError String × List (List String) :=
  invokeTool _run_nmap world "nmap" (Except.ok (ping_sweep_args network))

/-- End-to-end `aggressive_scan`. -/
def aggressive_scan_run (world : List String → ProcResult) (target : String) :
    Except InvokeError String × List (List String) :=
  invokeTool _run_nmap world "nmap" (Except.ok (aggressive_scan_args target))

/-- End-to-end nmap `custom_scan`: `shlex.split` runs first, so its
`ValueError` is raised before `_run_nmap` is ever entered. -/
def nmap_custom_scan_run (world : List String → ProcResult) (target extra_args : String) :
    Except InvokeError String × List (List String) :=
  invokeTool _run_nmap world "nmap" (nmap_custom_scan_args target extra_args)

/-- End-to-end `quick_scan`. -/
def quick_scan_run (world : List String → ProcResult) (url extensions : String)
    (threads : Option Int) (show_errors : Bool) :
    Except InvokeError String × List (List String) :=
  invokeTool _run_dirsearch world "dirsearch"
    (Except.ok (quick_scan_args url extensions threads show_errors))

/-- End-to-end `recursive_scan`. -/
def recursive_scan_run (world : List String → ProcResult) (url extensions : String)
    (max_depth threads : Option Int) (show_errors : Bool) :
    Except InvokeError String × List (List String) :=
  invokeTool _run_dirsearch world "dirsearch"
    (Except.ok (recursive_scan_args url extensions max_depth threads show_errors))

/-- End-to-end `deep_recursive_scan`. -/
def deep_recursive_scan_run (world : List String → ProcResult) (url extensions : String)
    (threads : Option Int) (show_errors : Bool) :
    Except InvokeError String × List (List String) :=
  invokeTool _run_dirsearch world "dirsearch"
    (Except.ok (deep_recursive_scan_args url extensions threads show_errors))

/-- End-to-end `subdirs_scan`. -/
def subdirs_scan_run (world : List String → ProcResult) (url subdirs extensions : String)
    (threads : Option Int) (show_errors : Bool) :
    Except InvokeError String × List (List String) :=
  invokeTool _run_dirsearch world "dirsearch"
    (Except.ok (subdirs_scan_args url subdirs extensions threads show_errors))

/-- End-to-end `wordlist_scan`. -/
def wordlist_scan_run (world : List String → ProcResult) (url wordlists extensions : String)
    (threads : Option Int) (show_errors : Bool) :
    Except InvokeError String × List (List String) :=
  invokeTool _run_dirsearch world "dirsearch"
    (Except.ok (wordlist_scan_args url wordlists extensions threads show_errors))

/-- End-to-end `proxy_scan`. -/
def proxy_scan_run (world : List String → ProcResult) (url proxy extensions : String)
    (threads : Option Int) (show_errors : Bool) :
    Except InvokeError String × List (List String) :=
  invokeTool _run_dirsearch world "dirsearch"
    (Except.ok (proxy_scan_args url proxy extensions threads show_errors))

/-- End-to-end `authenticated_scan`. -/
def authenticated_scan_run (world : List String → ProcResult)
    (url auth_cred auth_type extensions : String) (threads : Option Int) :
    Except InvokeError String × List (List String) :=
  invokeTool _run_dirsearch world "dirsearch"
    (Except.ok (authenticated_scan_args url auth_cred auth_type extensions threads))

/-- End-to-end dirsearch `custom_scan`: `shlex.split` runs first, so its
`ValueError` is raised before `_run_dirsearch` is ever entered. -/
def dirsearch_custom_scan_run (world : List String → ProcResult) (url extra_args : String) :
    Except InvokeError String × List (List String) :=
  invokeTool _run_dirsearch world "dirsearch" (dirsearch_custom_scan_args url extra_args)

/-! Filesystem model for `json_report_scan`. -/

/-- Boolean path-prefix test on character lists (used to decide whether a
path lies under a directory). -/
def listPre : List Char → List Char → Bool
  | [], _ => true
  | _ :: _, [] => false
  | a :: as, b :: bs => a == b && listPre as bs

/-- `underDir d p` holds when path `p` starts with the directory path `d`. -/
def underDir (d p : String) : Bool :=
  listPre d.data p.data

/-- Minimal filesystem state: the directories that exist and the files
that exist with their full text content. -/
structure FS where
  dirs : List String
  files : List (String × String)
deriving DecidableEq, Repr

/-- Recursive removal of directory `d` (what leaving the
`tempfile.TemporaryDirectory` context manager does): every directory and
file whose path starts with `d` disappears. -/
def removeTree (d : String) (fs : FS) : FS :=
  { dirs := fs.dirs.filter (fun x => !(underDir d x)),
    files := fs.files.filter (fun pc => !(underDir d pc.1)) }

/-- Failures of `json_report_scan`: the runner's `RuntimeError`, or the
`FileNotFoundError` from `open` when the binary did not write the report. -/
inductive JsonScanError where
  | runtime (msg : String)
  | fileNotFound (path : String)
deriving DecidableEq, Repr

/-- End-to-end `json_report_scan(url, extensions, threads=20,
show_errors=False)`.  `tmp` is the name the host gives the scoped
temporary directory; the oracle `world` returns the captured process
result together with the content the binary wrote to the report file
(`none` when it wrote nothing).  Inside the `with` block the code builds
`report_path = tmp + "/report.json"`, runs dirsearch, and returns the
report file's full text; on every exit path (normal return,
`RuntimeError` from the runner, or a failed `open`) the context manager
removes the temporary directory tree.  Returns the outcome, the final
filesystem state, and the spawned command lines. -/
def json_report_scan_run (world : List String → ProcResult × Option String)
    (tmp url extensions : String) (threads : Option Int) (show_errors : Bool) :
    Except JsonScanError String × FS × List (List String) :=
  let fs0 : FS := { dirs := [tmp], files := [] }
  let report_path := tmp ++ "/report.json"
  let cmd := "dirsearch" :: json_report_scan_args url extensions threads show_errors report_path
  let wr := world cmd
  let fs1 : FS :=
    match wr.2 with
    | some content => { fs0 with files := fs0.files ++ [(report_path, content)] }
    | none => fs0
  let res : Except JsonScanError String :=
    match _run_dirsearch wr.1 with
    | Except.error m => Except.error (JsonScanError.runtime m)
    | Except.ok _ =>
        match fs1.files.lookup report_path with
        | some c => Except.ok c
        | none => Except.error (JsonScanError.fileNotFound report_path)
  (res, removeTree tmp fs1, [cmd])


/-! Helper predicates for the claims. -/

/-- Tokens `a` and `b` occur adjacently, in that order, in the list `l`. -/
def adjPair (a b : String) (l : List String) : Prop :=
  ∃ l1 l2, l = l1 ++ a :: b :: l2

/-- An empty list holds no adjacent pair. -/
@[simp]
theorem adjPair_nil (a b : String) : ¬ adjPair a b [] := by
  rintro ⟨l1, l2, h⟩
  cases l1 <;> simp_all

/-- A one-element list holds no adjacent pair. -/
@[simp]
theorem adjPair_single (a b x : String) : ¬ adjPair a b [x] := by
  rintro ⟨l1, l2, h⟩
  cases l1 with
  | nil => simp_all
  | cons y l1 => cases l1 <;> simp_all

/-- Unfolding an adjacent-pair search one position at a time. -/
@[simp]
theorem adjPair_cons_cons (a b x y : String) (l : List String) :
    adjPair a b (x :: y :: l) ↔ (x = a ∧ y = b) ∨ adjPair a b (y :: l) := by
  constructor
  · rintro ⟨l1, l2, h⟩
    cases l1 with
    | nil =>
        simp only [List.nil_append, List.cons.injEq] at h
        exact Or.inl ⟨h.1, h.2.1⟩
    | cons z l1 =>
        simp only [List.cons_append, List.cons.injEq] at h
        exact Or.inr ⟨l1, l2, h.2⟩
  · rintro (⟨rfl, rfl⟩ | ⟨l1, l2, h⟩)
    · exact ⟨[], l, rfl⟩
    · exact ⟨x :: l1, l2, by simp [h]⟩

/-- The string `sub` occurs (contiguously) inside the string `s`. -/
def containsStr (s sub : String) : Prop :=
  ∃ a b, s = a ++ sub ++ b

/-- A path-prefix test is reflexive. -/
theorem listPre_refl (l : List Char) : listPre l l = true := by
  induction l with
  | nil => rfl
  | cons c cs ih => simp [listPre, ih]

/-- A directory lies under itself. -/
theorem underDir_refl (d : String) : underDir d d = true :=
  listPre_refl d.data

/-! Claim theorems. -/

/-- C9: for `full_port_scan`, `stealth_syn_scan`, `tcp_connect_scan` and
`udp_scan`, calling with `timing=None` does not omit the timing flag: the
f-string interpolation produces the literal token `-None` in the built
argument list. -/
theorem timing_none_literal_token (target ports : String) :
    full_port_scan_args target none = ["-Pn", "-sS", "-p", "1-65535", "-None", target] ∧
    stealth_syn_scan_args target ports none = ["-Pn", "-sS", "-p", ports, "-None", target] ∧
    tcp_connect_scan_args target ports none = ["-Pn", "-sT", "-p", ports, "-None", target] ∧
    udp_scan_args target ports none = ["-Pn", "-sU", "-p", ports, "-None", target] ∧
    "-None" ∈ full_port_scan_args target none ∧
    "-None" ∈ stealth_syn_scan_args target ports none ∧
    "-None" ∈ tcp_connect_scan_args target ports none ∧
    "-None" ∈ udp_scan_args target ports none := by
  refine ⟨rfl, rfl, rfl, rfl, ?_, ?_, ?_, ?_⟩ <;>
    simp [full_port_scan_args, stealth_syn_scan_args, tcp_connect_scan_args,
      udp_scan_args, _add_pn, pyStr]

/-- C1 counterexample: the claim asserts `-Pn` is absent from the
`ping_sweep` argument list for every network value, but at
`network = "-Pn"` the built list `["-sn", "-Pn"]` does contain it. -/
theorem ping_sweep_pn_injection : "-Pn" ∈ ping_sweep_args "-Pn" := by
  simp [ping_sweep_args]

/-- C1 (amended): `-Pn` is a token of every argument list built by
`full_port_scan`, `stealth_syn_scan`, `tcp_connect_scan`, `udp_scan`,
`os_detection_scan`, `aggressive_scan` and `custom_scan` (for every
parameter value), and `ping_sweep` never adds it: its list contains
`-Pn` for no network value other than the literal string `-Pn` itself. -/
theorem pn_flag_policy (target ports network extra_args : String)
    (timing : Option String) (quick : Bool) (ts : List String)
    (hnet : network ≠ "-Pn")
    (hsplit : shlexSplit extra_args = Except.ok ts) :
    "-Pn" ∈ full_port_scan_args target timing ∧
    "-Pn" ∈ stealth_syn_scan_args target ports timing ∧
    "-Pn" ∈ tcp_connect_scan_args target ports timing ∧
    "-Pn" ∈ udp_scan_args target ports timing ∧
    "-Pn" ∈ os_detection_scan_args target quick ∧
    "-Pn" ∈ aggressive_scan_args target ∧
    (∃ l, nmap_custom_scan_args target extra_args = Except.ok l ∧ "-Pn" ∈ l) ∧
    "-Pn" ∉ ping_sweep_args network := by
  refine ⟨?_, ?_, ?_, ?_, ?_, ?_, ?_, ?_⟩
  · simp [full_port_scan_args, _add_pn]
  · simp [stealth_syn_scan_args, _add_pn]
  · simp [tcp_connect_scan_args, _add_pn]
  · simp [udp_scan_args, _add_pn]
  · cases quick <;> simp [os_detection_scan_args, _add_pn]
  · simp [aggressive_scan_args, _add_pn]
  · refine ⟨_add_pn (ts ++ [target]), ?_, by simp [_add_pn]⟩
    unfold nmap_custom_scan_args
    rw [hsplit]
    rfl
  · simp [ping_sweep_args]
    exact fun h => hnet h.symm

/-- C1 witness: the amended claim at concrete inputs. -/
theorem pn_flag_policy_witness :
    "-Pn" ∈ full_port_scan_args "198.51.100.7" (some "T4") ∧
    "-Pn" ∈ stealth_syn_scan_args "198.51.100.7" "80" (some "T4") ∧
    "-Pn" ∈ tcp_connect_scan_args "198.51.100.7" "80" (some "T4") ∧
    "-Pn" ∈ udp_scan_args "198.51.100.7" "80" (some "T4") ∧
    "-Pn" ∈ os_detection_scan_args "198.51.100.7" true ∧
    "-Pn" ∈ aggressive_scan_args "198.51.100.7" ∧
    (∃ l, nmap_custom_scan_args "198.51.100.7" "-p 80" = Except.ok l ∧ "-Pn" ∈ l) ∧
    "-Pn" ∉ ping_sweep_args "203.0.113.0/24" :=
  pn_flag_policy "198.51.100.7" "80" "203.0.113.0/24" "-p 80" (some "T4") true
    ["-p", "80"] (by decide) (by rfl)

/-- C10: every nmap builder puts the target (or network) string last in
the built argument list; in `custom_scan` the shell-split `extra_args`
tokens all sit between `-Pn` and the final target token. -/
theorem nmap_target_last_token (target ports network extra_args : String)
    (timing : Option String) (quick : Bool) (ts : List String)
    (hsplit : shlexSplit extra_args = Except.ok ts) :
    (∃ l, full_port_scan_args target timing = l ++ [target]) ∧
    (∃ l, stealth_syn_scan_args target ports timing = l ++ [target]) ∧
    (∃ l, tcp_connect_scan_args target ports timing = l ++ [target]) ∧
    (∃ l, udp_scan_args target ports timing = l ++ [target]) ∧
    (∃ l, os_detection_scan_args target quick = l ++ [target]) ∧
    (∃ l, ping_sweep_args network = l ++ [network]) ∧
    (∃ l, aggressive_scan_args target = l ++ [target]) ∧
    nmap_custom_scan_args target extra_args = Except.ok (("-Pn" :: ts) ++ [target]) := by
  refine ⟨⟨["-Pn", "-sS", "-p", "1-65535", "-" ++ pyStr timing], rfl⟩,
    ⟨["-Pn", "-sS", "-p", ports, "-" ++ pyStr timing], rfl⟩,
    ⟨["-Pn", "-sT", "-p", ports, "-" ++ pyStr timing], rfl⟩,
    ⟨["-Pn", "-sU", "-p", ports, "-" ++ pyStr timing], rfl⟩,
    ?_, ⟨["-sn"], rfl⟩, ⟨["-Pn", "-A"], rfl⟩, ?_⟩
  · cases quick
    · exact ⟨["-Pn", "-O"], rfl⟩
    · exact ⟨["-Pn", "-F", "-O"], rfl⟩
  · unfold nmap_custom_scan_args
    rw [hsplit]
    rfl

/-- C10 witness: the last-token property at concrete inputs. -/
theorem nmap_target_last_token_witness :
    (∃ l, full_port_scan_args "192.0.2.9" (some "T3") = l ++ ["192.0.2.9"]) ∧
    (∃ l, stealth_syn_scan_args "192.0.2.9" "443" (some "T3") = l ++ ["192.0.2.9"]) ∧
    (∃ l, tcp_connect_scan_args "192.0.2.9" "443" (some "T3") = l ++ ["192.0.2.9"]) ∧
    (∃ l, udp_scan_args "192.0.2.9" "443" (some "T3") = l ++ ["192.0.2.9"]) ∧
    (∃ l, os_detection_scan_args "192.0.2.9" false = l ++ ["192.0.2.9"]) ∧
    (∃ l, ping_sweep_args "192.0.2.0/24" = l ++ ["192.0.2.0/24"]) ∧
    (∃ l, aggressive_scan_args "192.0.2.9" = l ++ ["192.0.2.9"]) ∧
    nmap_custom_scan_args "192.0.2.9" "--script vuln" =
      Except.ok (("-Pn" :: ["--script", "vuln"]) ++ ["192.0.2.9"]) :=
  nmap_target_last_token "192.0.2.9" "443" "192.0.2.0/24" "--script vuln"
    (some "T3") false ["--script", "vuln"] (by rfl)

/-- C3: the runners return exactly the captured stdout on exit status 0,
fail exactly when the exit status is non-zero, and the failure message
contains the exit code and the captured stderr, falling back to stdout
when stderr is empty. -/
theorem runner_exit_classification (r : ProcResult) :
    (r.returncode = 0 →
      _run_dirsearch r = Except.ok r.stdout ∧ _run_nmap r = Except.ok r.stdout) ∧
    (∀ s, _run_dirsearch r = Except.ok s → r.returncode = 0 ∧ s = r.stdout) ∧
    (∀ s, _run_nmap r = Except.ok s → r.returncode = 0 ∧ s = r.stdout) ∧
    (r.returncode ≠ 0 →
      _run_dirsearch r = Except.error ("dirsearch exited with " ++ toString r.returncode
        ++ ":\n" ++ (if r.stderr = "" then r.stdout else r.stderr)) ∧
      _run_nmap r = Except.error ("Nmap exited with " ++ toString r.returncode
        ++ ":\n" ++ (if r.stderr = "" then r.stdout else r.stderr)) ∧
      containsStr ("dirsearch exited with " ++ toString r.returncode
        ++ ":\n" ++ (if r.stderr = "" then r.stdout else r.stderr)) (toString r.returncode) ∧
      containsStr ("dirsearch exited with " ++ toString r.returncode
        ++ ":\n" ++ (if r.stderr = "" then r.stdout else r.stderr))
        (if r.stderr = "" then r.stdout else r.stderr) ∧
      containsStr ("Nmap exited with " ++ toString r.returncode
        ++ ":\n" ++ (if r.stderr = "" then r.stdout else r.stderr)) (toString r.returncode) ∧
      containsStr ("Nmap exited with " ++ toString r.returncode
        ++ ":\n" ++ (if r.stderr = "" then r.stdout else r.stderr))
        (if r.stderr = "" then r.stdout else r.stderr)) := by
  refine ⟨?_, ?_, ?_, ?_⟩
  · intro h
    simp [_run_dirsearch, _run_nmap, h]
  · intro s hs
    by_cases h : r.returncode = 0
    · simp [_run_dirsearch, h] at hs
      exact ⟨h, hs.symm⟩
    · simp [_run_dirsearch, h] at hs
  · intro s hs
    by_cases h : r.returncode = 0
    · simp [_run_nmap, h] at hs
      exact ⟨h, hs.symm⟩
    · simp [_run_nmap, h] at hs
  · intro h
    refine ⟨by simp [_run_dirsearch, h], by simp [_run_nmap, h],
      ⟨"dirsearch exited with ", ":\n" ++ (if r.stderr = "" then r.stdout else r.stderr),
        by simp [String.append_assoc]⟩,
      ⟨"dirsearch exited with " ++ toString r.returncode ++ ":\n", "",
        by simp [String.append_assoc]⟩,
      ⟨"Nmap exited with ", ":\n" ++ (if r.stderr = "" then r.stdout else r.stderr),
        by simp [String.append_assoc]⟩,
      ⟨"Nmap exited with " ++ toString r.returncode ++ ":\n", "",
        by simp [String.append_assoc]⟩⟩

/-- C3 witness: the example from the claim — exit code 2 with stderr
`err` produces error messages containing both `2` and `err`. -/
theorem runner_exit_classification_witness :
    _run_dirsearch ⟨2, "out", "err"⟩ = Except.error "dirsearch exited with 2:\nerr" ∧
    _run_nmap ⟨2, "out", "err"⟩ = Except.error "Nmap exited with 2:\nerr" ∧
    containsStr "dirsearch exited with 2:\nerr" "2" ∧
    containsStr "dirsearch exited with 2:\nerr" "err" ∧
    containsStr "Nmap exited with 2:\nerr" "2" ∧
    containsStr "Nmap exited with 2:\nerr" "err" := by
  have h := (runner_exit_classification ⟨2, "out", "err"⟩).2.2.2 (by decide)
  exact h

/-- C4: when `extra_args` has an unterminated quote, both `custom_scan`
tools fail with the `shlex` parsing error and spawn no process, for every
subprocess oracle (the tokenisation error precedes any invocation). -/
theorem custom_scan_parse_error_no_spawn (world : List String → ProcResult)
    (target url extra_args : String)
    (h : shlexSplit extra_args = Except.error ShlexErr.noClosingQuotation) :
    nmap_custom_scan_run world target extra_args =
      (Except.error (InvokeError.parse ShlexErr.noClosingQuotation), []) ∧
    dirsearch_custom_scan_run world url extra_args =
      (Except.error (InvokeError.parse ShlexErr.noClosingQuotation), []) := by
  constructor
  · unfold nmap_custom_scan_run invokeTool nmap_custom_scan_args
    rw [h]
    rfl
  · unfold dirsearch_custom_scan_run invokeTool dirsearch_custom_scan_args
    rw [h]
    rfl

/-- C4 witness: the unterminated-quote input `"oops` at a concrete
oracle. -/
theorem custom_scan_parse_error_no_spawn_witness :
    nmap_custom_scan_run (fun _ => ⟨0, "", ""⟩) "192.0.2.1" "\"oops" =
      (Except.error (InvokeError.parse ShlexErr.noClosingQuotation), []) ∧
    dirsearch_custom_scan_run (fun _ => ⟨0, "", ""⟩) "http://example.test" "\"oops" =
      (Except.error (InvokeError.parse ShlexErr.noClosingQuotation), []) :=
  custom_scan_parse_error_no_spawn (fun _ => ⟨0, "", ""⟩) "192.0.2.1"
    "http://example.test" "\"oops" (by rfl)

/-- C6: for every tool of both providers the spawned command line is
exactly the binary name followed by the built token sequence, independent
of the subprocess oracle: argument building is a pure function of the
declared parameters (identical parameters give identical tokens, and the
build step itself spawns nothing — on a builder failure the spawn list is
empty). -/
theorem builder_determines_spawn (world : List String → ProcResult)
    (jworld : List String → ProcResult × Option String)
    (target ports network url subdirs wordlists proxy auth_cred auth_type
      extensions extra_args tmp : String)
    (timing : Option String) (quick show_errors : Bool)
    (threads max_depth : Option Int) :
    (full_port_scan_run world target timing).2 =
      ["nmap" :: full_port_scan_args target timing] ∧
    (stealth_syn_scan_run world target ports timing).2 =
      ["nmap" :: stealth_syn_scan_args target ports timing] ∧
    (tcp_connect_scan_run world target ports timing).2 =
      ["nmap" :: tcp_connect_scan_args target ports timing] ∧
    (udp_scan_run world target ports timing).2 =
      ["nmap" :: udp_scan_args target ports timing] ∧
    (os_detection_scan_run world target quick).2 =
      ["nmap" :: os_detection_scan_args target quick] ∧
    (ping_sweep_run world network).2 = ["nmap" :: ping_sweep_args network] ∧
    (aggressive_scan_run world target).2 = ["nmap" :: aggressive_scan_args target] ∧
    (nmap_custom_scan_run world target extra_args).2 =
      (match nmap_custom_scan_args target extra_args with
       | Except.ok l => ["nmap" :: l]
       | Except.error _ => []) ∧
    (quick_scan_run world url extensions threads show_errors).2 =
      ["dirsearch" :: quick_scan_args url extensions threads show_errors] ∧
    (recursive_scan_run world url extensions max_depth threads show_errors).2 =
      ["dirsearch" :: recursive_scan_args url extensions max_depth threads show_errors] ∧
    (deep_recursive_scan_run world url extensions threads show_errors).2 =
      ["dirsearch" :: deep_recursive_scan_args url extensions threads show_errors] ∧
    (subdirs_scan_run world url subdirs extensions threads show_errors).2 =
      ["dirsearch" :: subdirs_scan_args url subdirs extensions threads show_errors] ∧
    (wordlist_scan_run world url wordlists extensions threads show_errors).2 =
      ["dirsearch" :: wordlist_scan_args url wordlists extensions threads show_errors] ∧
    (proxy_scan_run world url proxy extensions threads show_errors).2 =
      ["dirsearch" :: proxy_scan_args url proxy extensions threads show_errors] ∧
    (authenticated_scan_run world url auth_cred auth_type extensions threads).2 =
      ["dirsearch" :: authenticated_scan_args url auth_cred auth_type extensions threads] ∧
    (dirsearch_custom_scan_run world url extra_args).2 =
      (match dirsearch_custom_scan_args url extra_args with
       | Except.ok l => ["dirsearch" :: l]
       | Except.error _ => []) ∧
    (json_report_scan_run jworld tmp url extensions threads show_errors).2.2 =
      ["dirsearch" ::
        json_report_scan_args url extensions threads show_errors (tmp ++ "/report.json")] := by
  refine ⟨rfl, rfl, rfl, rfl, rfl, rfl, rfl, ?_, rfl, rfl, rfl, rfl, rfl, rfl, rfl, ?_, rfl⟩
  · unfold nmap_custom_scan_run invokeTool
    cases nmap_custom_scan_args target extra_args <;> rfl
  · unfold dirsearch_custom_scan_run invokeTool
    cases dirsearch_custom_scan_args url extra_args <;> rfl

/-- C8: for a well-formed `extra_args`, both `custom_scan` builders place
the shell-split tokens after the fixed base flags, in their original
order (nmap additionally appends the target after them); the two closed
conjuncts exercise the quoting rules of the tokenizer. -/
theorem custom_scan_token_order (target url extra_args : String) (ts : List String)
    (h : shlexSplit extra_args = Except.ok ts) :
    nmap_custom_scan_args target extra_args = Except.ok (["-Pn"] ++ ts ++ [target]) ∧
    dirsearch_custom_scan_args url extra_args =
      Except.ok (["-q", "-t", "20", "-u", url] ++ ts) ∧
    shlexSplit "-p \"80 443\" --script vuln" =
      Except.ok ["-p", "80 443", "--script", "vuln"] ∧
    shlexSplit "a\\ b 'c d'" = Except.ok ["a b", "c d"] := by
  refine ⟨?_, ?_, by rfl, by rfl⟩
  · unfold nmap_custom_scan_args
    rw [h]
    rfl
  · unfold dirsearch_custom_scan_args
    rw [h]
    rfl

/-- C8 witness: token ordering at a concrete `extra_args`. -/
theorem custom_scan_token_order_witness :
    nmap_custom_scan_args "192.0.2.4" "-p 80,443 --open" =
      Except.ok (["-Pn"] ++ ["-p", "80,443", "--open"] ++ ["192.0.2.4"]) ∧
    dirsearch_custom_scan_args "http://example.test" "-p 80,443 --open" =
      Except.ok (["-q", "-t", "20", "-u", "http://example.test"] ++ ["-p", "80,443", "--open"]) ∧
    shlexSplit "-p \"80 443\" --script vuln" =
      Except.ok ["-p", "80 443", "--script", "vuln"] ∧
    shlexSplit "a\\ b 'c d'" = Except.ok ["a b", "c d"] :=
  custom_scan_token_order "192.0.2.4" "http://example.test" "-p 80,443 --open"
    ["-p", "80,443", "--open"] (by rfl)

/-- C2: the tokens `--include-status`, `200-399` appear adjacently in
every dirsearch argument list built with `show_errors=False`, never
appear when the caller sets `show_errors=True`, never appear in
`authenticated_scan` (which always includes all codes so auth failures
stay visible), and in `custom_scan` the builder adds no filter: the pair
occurs exactly when the caller's own `url`/`extra_args` tokens carry it. -/
theorem status_filter_policy
    (url subdirs wordlists proxy auth_cred auth_type extensions report_path
      extra_args : String)
    (threads max_depth : Option Int) (ts : List String)
    (h : shlexSplit extra_args = Except.ok ts) :
    adjPair "--include-status" "200-399" (quick_scan_args url extensions threads false) ∧
    adjPair "--include-status" "200-399"
      (recursive_scan_args url extensions max_depth threads false) ∧
    adjPair "--include-status" "200-399"
      (deep_recursive_scan_args url extensions threads false) ∧
    adjPair "--include-status" "200-399"
      (subdirs_scan_args url subdirs extensions threads false) ∧
    adjPair "--include-status" "200-399"
      (wordlist_scan_args url wordlists extensions threads false) ∧
    adjPair "--include-status" "200-399"
      (json_report_scan_args url extensions threads false report_path) ∧
    adjPair "--include-status" "200-399"
      (proxy_scan_args url proxy extensions threads false) ∧
    ¬ adjPair "--include-status" "200-399" (quick_scan_args url extensions threads true) ∧
    ¬ adjPair "--include-status" "200-399"
      (recursive_scan_args url extensions max_depth threads true) ∧
    ¬ adjPair "--include-status" "200-399"
      (deep_recursive_scan_args url extensions threads true) ∧
    ¬ adjPair "--include-status" "200-399"
      (subdirs_scan_args url subdirs extensions threads true) ∧
    ¬ adjPair "--include-status" "200-399"
      (wordlist_scan_args url wordlists extensions threads true) ∧
    ¬ adjPair "--include-status" "200-399"
      (json_report_scan_args url extensions threads true report_path) ∧
    ¬ adjPair "--include-status" "200-399"
      (proxy_scan_args url proxy extensions threads true) ∧
    ¬ adjPair "--include-status" "200-399"
      (authenticated_scan_args url auth_cred auth_type extensions threads) ∧
    (∀ l, dirsearch_custom_scan_args url extra_args = Except.ok l →
      (adjPair "--include-status" "200-399" l ↔
        adjPair "--include-status" "200-399" (url :: ts))) := by
  have hc : ∀ l, dirsearch_custom_scan_args url extra_args = Except.ok l →
      (adjPair "--include-status" "200-399" l ↔
        adjPair "--include-status" "200-399" (url :: ts)) := by
    intro l hl
    unfold dirsearch_custom_scan_args at hl
    rw [h] at hl
    simp only [Except.map, Except.ok.injEq] at hl
    subst hl
    simp [_base_args]
  refine ⟨?_, ?_, ?_, ?_, ?_, ?_, ?_, ?_, ?_, ?_, ?_, ?_, ?_, ?_, ?_, hc⟩ <;>
  · rcases threads with _ | n <;>
    rcases max_depth with _ | d <;>
    by_cases he : extensions = "" <;>
    first
      | (by_cases hn : n = 0 <;>
          simp [quick_scan_args, recursive_scan_args, deep_recursive_scan_args,
            subdirs_scan_args, wordlist_scan_args, json_report_scan_args,
            proxy_scan_args, authenticated_scan_args, _base_args, hn, he])
      | simp [quick_scan_args, recursive_scan_args, deep_recursive_scan_args,
          subdirs_scan_args, wordlist_scan_args, json_report_scan_args,
          proxy_scan_args, authenticated_scan_args, _base_args, he]

/-- C2 witness: the filter policy at concrete parameter values. -/
theorem status_filter_policy_witness :
    adjPair "--include-status" "200-399"
      (quick_scan_args "http://example.test" "php" (some 20) false) ∧
    ¬ adjPair "--include-status" "200-399"
      (quick_scan_args "http://example.test" "php" (some 20) true) ∧
    ¬ adjPair "--include-status" "200-399"
      (authenticated_scan_args "http://example.test" "user:pw" "basic" "php" (some 20)) ∧
    (∀ l, dirsearch_custom_scan_args "http://example.test" "-x 5" = Except.ok l →
      (adjPair "--include-status" "200-399" l ↔
        adjPair "--include-status" "200-399" ("http://example.test" :: ["-x", "5"]))) := by
  obtain ⟨p1, p2, p3, p4, p5, p6, p7, a1, a2, a3, a4, a5, a6, a7, aa, hcu⟩ :=
    status_filter_policy "http://example.test" "admin" "wl.txt" "http://proxy.test"
      "user:pw" "basic" "php" "/tmp/r.json" "-x 5" (some 20) (some 3) ["-x", "5"] (by rfl)
  exact ⟨p1, a1, aa, hcu⟩

/-- Rendering of `str(threads)` for the `int | None` threads parameter
(`str(None)` is the text `None`). -/
def pyStrInt (t : Option Int) : String :=
  match t with
  | some n => toString n
  | none => "None"

/-- C7: every dirsearch builder emits the adjacent pair `-t`,
`str(threads)` exactly when `threads` is truthy: for any non-zero thread
count the pair is present, the defaults are 20 (40 for
`deep_recursive_scan`, fixed 20 for `custom_scan`), and `threads=None` or
`threads=0` makes `_base_args` add no concurrency flag at all. -/
theorem threads_flag_policy
    (url subdirs wordlists proxy auth_cred auth_type extensions report_path
      extra_args : String)
    (threads max_depth : Option Int) (n : Int) (se : Bool) (ts : List String)
    (hn : n ≠ 0)
    (hz : threads = none ∨ threads = some 0)
    (h : shlexSplit extra_args = Except.ok ts) :
    adjPair "-t" (toString n) (quick_scan_args url extensions (some n) se) ∧
    adjPair "-t" (toString n) (recursive_scan_args url extensions max_depth (some n) se) ∧
    adjPair "-t" (toString n) (deep_recursive_scan_args url extensions (some n) se) ∧
    adjPair "-t" (toString n) (subdirs_scan_args url subdirs extensions (some n) se) ∧
    adjPair "-t" (toString n) (wordlist_scan_args url wordlists extensions (some n) se) ∧
    adjPair "-t" (toString n) (json_report_scan_args url extensions (some n) se report_path) ∧
    adjPair "-t" (toString n) (proxy_scan_args url proxy extensions (some n) se) ∧
    adjPair "-t" (toString n)
      (authenticated_scan_args url auth_cred auth_type extensions (some n)) ∧
    threads_default = some 20 ∧
    deep_threads_default = some 40 ∧
    adjPair "-t" "20" (quick_scan_args url extensions threads_default se) ∧
    adjPair "-t" "40" (deep_recursive_scan_args url extensions deep_threads_default se) ∧
    (∀ l, dirsearch_custom_scan_args url extra_args = Except.ok l →
      adjPair "-t" "20" l) ∧
    _base_args threads se = ["-q"] ++ (if se then [] else ["--include-status", "200-399"]) ∧
    ¬ adjPair "-t" (pyStrInt threads) (quick_scan_args url extensions threads se) ∧
    ¬ adjPair "-t" (pyStrInt threads)
      (recursive_scan_args url extensions max_depth threads se) ∧
    ¬ adjPair "-t" (pyStrInt threads) (deep_recursive_scan_args url extensions threads se) ∧
    ¬ adjPair "-t" (pyStrInt threads)
      (subdirs_scan_args url subdirs extensions threads se) ∧
    ¬ adjPair "-t" (pyStrInt threads)
      (wordlist_scan_args url wordlists extensions threads se) ∧
    ¬ adjPair "-t" (pyStrInt threads)
      (json_report_scan_args url extensions threads se report_path) ∧
    ¬ adjPair "-t" (pyStrInt threads) (proxy_scan_args url proxy extensions threads se) ∧
    ¬ adjPair "-t" (pyStrInt threads)
      (authenticated_scan_args url auth_cred auth_type extensions threads) := by
  have hd : ∀ l, dirsearch_custom_scan_args url extra_args = Except.ok l →
      adjPair "-t" "20" l := by
    intro l hl
    unfold dirsearch_custom_scan_args at hl
    rw [h] at hl
    simp only [Except.map, Except.ok.injEq] at hl
    subst hl
    simp [_base_args, show toString (20 : Int) = "20" from rfl]
  refine ⟨?_, ?_, ?_, ?_, ?_, ?_, ?_, ?_, rfl, rfl, ?_, ?_, hd, ?_, ?_, ?_, ?_, ?_, ?_,
    ?_, ?_, ?_⟩ <;>
  · rcases hz with rfl | rfl <;>
    cases se <;>
    rcases max_depth with _ | d <;>
    by_cases he : extensions = "" <;>
    simp [quick_scan_args, recursive_scan_args, deep_recursive_scan_args,
      subdirs_scan_args, wordlist_scan_args, json_report_scan_args,
      proxy_scan_args, authenticated_scan_args, _base_args, threads_default,
      deep_threads_default, pyStrInt, hn, he,
      show toString (20 : Int) = "20" from rfl,
      show toString (40 : Int) = "40" from rfl,
      show toString (0 : Int) = "0" from rfl]

/-- C7 witness: the threads policy at concrete parameter values
(`threads=7` adds the pair, the defaults add `-t 20` / `-t 40`, and
`threads=None` adds no flag). -/
theorem threads_flag_policy_witness :
    adjPair "-t" (toString (7 : Int))
      (quick_scan_args "http://example.test" "php" (some 7) false) ∧
    adjPair "-t" "20" (quick_scan_args "http://example.test" "php" threads_default false) ∧
    adjPair "-t" "40"
      (deep_recursive_scan_args "http://example.test" "php" deep_threads_default false) ∧
    _base_args none false =
      ["-q"] ++ (if false then [] else ["--include-status", "200-399"]) ∧
    ¬ adjPair "-t" (pyStrInt (none : Option Int))
      (quick_scan_args "http://example.test" "php" none false) := by
  obtain ⟨t1, t2, t3, t4, t5, t6, t7, t8, d1, d2, d3, d4, dc, b0,
      a1, a2, a3, a4, a5, a6, a7, a8⟩ :=
    threads_flag_policy "http://example.test" "admin" "wl.txt" "http://proxy.test"
      "user:pw" "basic" "php" "/tmp/r.json" "-x 5" none (some 3) 7 false
      ["-x", "5"] (by decide) (Or.inl rfl) (by rfl)
  exact ⟨t1, d3, d4, b0, a1⟩

/-- A list is a prefix of itself extended by anything. -/
theorem listPre_append (l m : List Char) : listPre l (l ++ m) = true := by
  induction l with
  | nil => rfl
  | cons c cs ih => simp [listPre, ih]

/-- A path formed by extending a directory path lies under it. -/
theorem underDir_append (d s : String) : underDir d (d ++ s) = true := by
  unfold underDir
  have hd : (d ++ s).data = d.data ++ s.data := by
    cases d
    cases s
    rfl
  rw [hd]
  exact listPre_append _ _

/-- C5: `json_report_scan` returns `Except.ok c` precisely when the
subprocess exited 0 and wrote the report file with content `c` (so a
normal return is the exact full text of the report the binary wrote into
the scoped temporary directory), and on every exit path — normal return,
runner failure, or missing report file — the final filesystem state
contains neither the temporary directory nor any file under it. -/
theorem json_report_scan_report_and_cleanup
    (world : List String → ProcResult × Option String)
    (tmp url extensions : String) (threads : Option Int) (show_errors : Bool) :
    (∀ c, (json_report_scan_run world tmp url extensions threads show_errors).1 =
        Except.ok c ↔
      ((world ("dirsearch" :: json_report_scan_args url extensions threads show_errors
          (tmp ++ "/report.json"))).1.returncode = 0 ∧
       (world ("dirsearch" :: json_report_scan_args url extensions threads show_errors
          (tmp ++ "/report.json"))).2 = some c)) ∧
    tmp ∉ (json_report_scan_run world tmp url extensions threads show_errors).2.1.dirs ∧
    (∀ d, d ∈ (json_report_scan_run world tmp url extensions threads show_errors).2.1.dirs →
      underDir tmp d = false) ∧
    (∀ p c,
      (p, c) ∈ (json_report_scan_run world tmp url extensions threads show_errors).2.1.files →
      underDir tmp p = false) := by
  have hdirs : ∀ d,
      d ∈ (json_report_scan_run world tmp url extensions threads show_errors).2.1.dirs →
      underDir tmp d = false := by
    intro d hd
    unfold json_report_scan_run removeTree at hd
    simp only [List.mem_filter, Bool.not_eq_eq_eq_not, Bool.not_true] at hd
    exact hd.2
  have hfiles : ∀ p c,
      (p, c) ∈ (json_report_scan_run world tmp url extensions threads show_errors).2.1.files →
      underDir tmp p = false := by
    intro p c hp
    unfold json_report_scan_run removeTree at hp
    simp only [List.mem_filter, Bool.not_eq_eq_eq_not, Bool.not_true] at hp
    exact hp.2
  refine ⟨?_, ?_, hdirs, hfiles⟩
  · intro c
    unfold json_report_scan_run _run_dirsearch
    rcases hw : world ("dirsearch" :: json_report_scan_args url extensions threads
        show_errors (tmp ++ "/report.json")) with ⟨r, written⟩
    rcases written with _ | content <;>
      by_cases hrc : r.returncode = 0 <;>
        simp [hw, hrc, List.lookup]
  · intro hmem
    have := hdirs tmp hmem
    rw [underDir_refl] at this
    cases this

/-- C5 witness: with an oracle whose process exits 0 and writes `{}` to
the report file, the call returns exactly `{}` and the temporary
directory is gone afterwards. -/
theorem json_report_scan_report_and_cleanup_witness :
    (json_report_scan_run (fun _ => (⟨0, "", ""⟩, some "{}")) "/tmp/scan"
      "http://example.test" "php" (some 20) false).1 = Except.ok "{}" ∧
    "/tmp/scan" ∉ (json_report_scan_run (fun _ => (⟨0, "", ""⟩, some "{}")) "/tmp/scan"
      "http://example.test" "php" (some 20) false).2.1.dirs := by
  have h := json_report_scan_report_and_cleanup (fun _ => (⟨0, "", ""⟩, some "{}"))
    "/tmp/scan" "http://example.test" "php" (some 20) false
  exact ⟨(h.1 "{}").mpr ⟨rfl, rfl⟩, h.2.1⟩
